import Mathlib

/-!
Shallow embedding of the stable-MIR to internal-rustc translator found in
compiler/rustc_smir/src/rustc_internal/internal.rs, together with the
per-session identity table (Tables) and the destination context (TyCtxt)
that the translator threads through every call.

Modelling conventions, applied uniformly:
* stable opaque indices (DefId, Ty, Span, AllocId, and the id fields of
  TyConst / MirConst / Instance) are natural numbers;
* the identity table is a record of partial maps from indices to internal
  values; an absent entry models the panicking index lookup and is reported
  as the MissingIdentity failure;
* the context lift (tcx.lift(..).unwrap()) is modelled by Option-valued
  lift functions stored in the context record; a lift returning none models
  the panicking unwrap and is reported as the LiftFailure failure;
* the panics written as unimplemented or todo in the source are reported as
  the UnsupportedConstruct failure;
* interning constructors of the context (mk_args_from_iter, mk_type_list,
  mk_place_elems, mk_pat, mk_poly_existential_predicates,
  mk_bound_variable_kinds_from_iter, mk_offset_of) intern structurally
  equal values to one identity, so they are the identity on lists here;
* newtype wrappers around DefId on the stable side (CrateItem, ForeignDef,
  FnDef, ClosureDef, CoroutineDef, TraitDef, StaticDef, AdtDef's payload)
  are collapsed to the wrapped DefId index, matching the .0 projections the
  translator applies to them;
* strings stand for the opaque payloads of the stable schema and for
  interned symbols;
* internal enum mirrors carry the constructors the translator produces
  (plus, where noted, variants it deliberately never produces).
-/

/-- The three terminal failure kinds of the translation layer. -/
inductive Err where
  | MissingIdentity
  | LiftFailure
  | UnsupportedConstruct
deriving DecidableEq, Repr

/-! ## Stable schema: scalar and enum leaves -/

inductive IntTy where
  | Isize | I8 | I16 | I32 | I64 | I128
deriving DecidableEq, Repr, Fintype

inductive UintTy where
  | Usize | U8 | U16 | U32 | U64 | U128
deriving DecidableEq, Repr, Fintype

inductive FloatTy where
  | F16 | F32 | F64 | F128
deriving DecidableEq, Repr, Fintype

inductive Mutability where
  | Not | Mut
deriving DecidableEq, Repr, Fintype

inductive Movability where
  | Static | Movable
deriving DecidableEq, Repr, Fintype

inductive Safety where
  | Unsafe | Safe
deriving DecidableEq, Repr, Fintype

/-- Stable calling-convention tags; the unwind flag rides along unchanged. -/
inductive Abi where
  | Rust
  | C (unwind : Bool)
  | Cdecl (unwind : Bool)
  | Stdcall (unwind : Bool)
  | Fastcall (unwind : Bool)
  | Vectorcall (unwind : Bool)
  | Thiscall (unwind : Bool)
  | Aapcs (unwind : Bool)
  | Win64 (unwind : Bool)
  | SysV64 (unwind : Bool)
  | PtxKernel
  | Msp430Interrupt
  | X86Interrupt
  | EfiApi
  | AvrInterrupt
  | AvrNonBlockingInterrupt
  | CCmseNonSecureCall
  | System (unwind : Bool)
  | RustIntrinsic
  | RustCall
  | Unadjusted
  | RustCold
  | RiscvInterruptM
  | RiscvInterruptS
deriving DecidableEq, Repr, Fintype

inductive Variance where
  | Covariant | Invariant | Contravariant | Bivariant
deriving DecidableEq, Repr, Fintype

inductive ClosureKind where
  | Fn | FnMut | FnOnce
deriving DecidableEq, Repr, Fintype

inductive DynKind where
  | Dyn | DynStar
deriving DecidableEq, Repr, Fintype

inductive CoroutineDesugaring where
  | Async | Gen | AsyncGen
deriving DecidableEq, Repr

inductive CoroutineSource where
  | Block | Closure | Fn
deriving DecidableEq, Repr

inductive CoroutineKind where
  | Desugared (d : CoroutineDesugaring) (s : CoroutineSource)
  | Coroutine (m : Movability)
deriving DecidableEq, Repr

/-! ## Stable schema: indices and small structures -/

/-- Stable DefId: a small opaque index into the identity table. -/
abbrev DefId := Nat

/-- Stable Ty: a small opaque index into the identity table's type map. -/
abbrev Ty := Nat

/-- Stable Span: a small opaque index into the identity table's span map. -/
abbrev Span := Nat

/-- Stable AllocId: a small opaque index into the allocation map. -/
abbrev AllocId := Nat

/-- Stable VariantIdx, already a plain index on the stable side. -/
abbrev VariantIdx := Nat

/-- Stable TyConst; the translator consults only its table id. -/
structure TyConst where
  id : Nat
deriving DecidableEq, Repr

/-- Stable MirConst; the translator consults only its table id. -/
structure MirConst where
  id : Nat
deriving DecidableEq, Repr

/-- Stable Instance; the translator consults only its instance-table index
(the field named def in the source). -/
structure Instance where
  idef : Nat
deriving DecidableEq, Repr

/-- Stable AdtDef, a wrapper around a DefId index (the .0 field). -/
structure AdtDef where
  did : DefId
deriving DecidableEq, Repr

inductive MonoItem where
  | Fn (i : Instance)
  | Static (d : DefId)
  | GlobalAsm (asm : String)
deriving DecidableEq, Repr

/-! ## Stable schema: regions, binders, generic arguments, types -/

inductive BoundTyKind where
  | Anon
  | Param (d : DefId) (sym : String)
deriving DecidableEq, Repr

inductive BoundRegionKind where
  | BrAnon
  | BrNamed (d : DefId) (sym : String)
  | BrEnv
deriving DecidableEq, Repr

inductive BoundVariableKind where
  | Ty (k : BoundTyKind)
  | Region (k : BoundRegionKind)
  | Const
deriving DecidableEq, Repr

/-- Stable region kinds: the translator discards all of this content, so the
embedding keeps a representative set of kinds, among them bound and
placeholder (existential) regions. -/
inductive RegionKind where
  | ReEarlyParam (index : Nat) (sym : String)
  | ReBound (dbIndex : Nat) (k : BoundRegionKind)
  | ReStatic
  | ReErased
  | RePlaceholder (univ : Nat) (k : BoundRegionKind)
deriving DecidableEq, Repr

/-- Stable Region value. -/
structure Region where
  kind : RegionKind
deriving DecidableEq, Repr

/-- Stable generic argument; Typ stands for the source's Type constructor,
whose name is reserved in Lean. -/
inductive GenericArgKind where
  | Lifetime (r : Region)
  | Typ (ty : Ty)
  | Const (c : TyConst)
deriving DecidableEq, Repr

abbrev GenericArgs := List GenericArgKind

/-- Stable binder: a value together with its bound-variable kinds. -/
structure Binder (α : Type) where
  value : α
  bound_vars : List BoundVariableKind
deriving DecidableEq, Repr

structure FnSig where
  inputs_and_output : List Ty
  c_variadic : Bool
  safety : Safety
  abi : Abi
deriving DecidableEq, Repr

structure ExistentialTraitRef where
  def_id : DefId
  generic_args : GenericArgs
deriving DecidableEq, Repr

/-- Stable term; Typ stands for the source's Type constructor. -/
inductive TermKind where
  | Typ (ty : Ty)
  | Const (c : TyConst)
deriving DecidableEq, Repr

structure ExistentialProjection where
  def_id : DefId
  generic_args : GenericArgs
  term : TermKind
deriving DecidableEq, Repr

inductive ExistentialPredicate where
  | Trait (tr : ExistentialTraitRef)
  | Projection (p : ExistentialProjection)
  | AutoTrait (d : DefId)
deriving DecidableEq, Repr

/-- Stable pattern type refinement; pstart and pend name the range ends. -/
inductive Pattern where
  | Range (pstart pend : Option TyConst) (include_end : Bool)
deriving DecidableEq, Repr

/-- Stable rigid type shapes, exactly the variant set the translator
matches on; DefId-newtype wrappers are collapsed to their indices. -/
inductive RigidTy where
  | Bool
  | Char
  | Int (t : IntTy)
  | Uint (t : UintTy)
  | Float (t : FloatTy)
  | Never
  | Array (ty : Ty) (c : TyConst)
  | Pat (ty : Ty) (p : Pattern)
  | Adt (a : AdtDef) (args : GenericArgs)
  | Str
  | Slice (ty : Ty)
  | RawPtr (ty : Ty) (m : Mutability)
  | Ref (r : Region) (ty : Ty) (m : Mutability)
  | Foreign (d : DefId)
  | FnDef (d : DefId) (args : GenericArgs)
  | FnPtr (sig : Binder FnSig)
  | Closure (d : DefId) (args : GenericArgs)
  | Coroutine (d : DefId) (args : GenericArgs) (mov : Movability)
  | CoroutineWitness (d : DefId) (args : GenericArgs)
  | Dynamic (preds : List (Binder ExistentialPredicate)) (r : Region) (k : DynKind)
  | Tuple (tys : List Ty)

/-! ## Stable schema: MIR value and control-flow nodes -/

inductive BinOp where
  | Add | AddUnchecked
  | Sub | SubUnchecked
  | Mul | MulUnchecked
  | Div | Rem
  | BitXor | BitAnd | BitOr
  | Shl | ShlUnchecked
  | Shr | ShrUnchecked
  | Eq | Lt | Le | Ne | Ge | Gt
  | Cmp
  | Offset
deriving DecidableEq, Repr, Fintype

inductive UnOp where
  | Not | Neg | PtrMetadata
deriving DecidableEq, Repr

inductive FakeBorrowKind where
  | Deep | Shallow
deriving DecidableEq, Repr

inductive MutBorrowKind where
  | Default | TwoPhaseBorrow | ClosureCapture
deriving DecidableEq, Repr

inductive BorrowKind where
  | Shared
  | Fake (k : FakeBorrowKind)
  | Mut (kind : MutBorrowKind)
deriving DecidableEq, Repr

inductive PointerCoercion where
  | ReifyFnPointer
  | UnsafeFnPointer
  | ClosureFnPointer (s : Safety)
  | MutToConstPointer
  | ArrayToPointer
  | Unsize
deriving DecidableEq, Repr

inductive CastKind where
  | PointerExposeAddress
  | PointerWithExposedProvenance
  | PointerCoercion (pc : PointerCoercion)
  | DynStar
  | IntToInt
  | FloatToInt
  | FloatToFloat
  | IntToFloat
  | PtrToPtr
  | FnPtrToPtr
  | Transmute
deriving DecidableEq, Repr

inductive NullOp where
  | SizeOf
  | AlignOf
  | OffsetOf (offsets : List (VariantIdx × Nat))
  | UbChecks
deriving DecidableEq, Repr

/-- Stable place projections; numeric bounds are plain naturals. The field
names of the source's Subslice (from, to) are keywords-adjacent, so they are
called sfrom and sto here. -/
inductive ProjectionElem where
  | Deref
  | Field (idx : Nat) (ty : Ty)
  | Index (l : Nat)
  | ConstantIndex (offset min_length : Nat) (from_end : Bool)
  | Subslice (sfrom sto : Nat) (from_end : Bool)
  | Downcast (idx : VariantIdx)
  | OpaqueCast (ty : Ty)
  | Subtype (ty : Ty)
deriving DecidableEq, Repr

/-- Stable place: a local index (the source field local is a Lean keyword,
called locl here) and an ordered projection sequence. -/
structure Place where
  locl : Nat
  projection : List ProjectionElem
deriving DecidableEq, Repr

structure ConstOperand where
  span : Span
  user_ty : Option Nat
  const_ : MirConst
deriving DecidableEq, Repr

inductive Operand where
  | Copy (p : Place)
  | Move (p : Place)
  | Constant (co : ConstOperand)
deriving DecidableEq, Repr

inductive AggregateKind where
  | Array (ty : Ty)
  | Tuple
  | Adt (a : AdtDef) (v : VariantIdx) (args : GenericArgs)
      (user_ty_index : Option Nat) (field_idx : Option Nat)
  | Closure (d : DefId) (args : GenericArgs)
  | Coroutine (d : DefId) (args : GenericArgs) (mov : Movability)
  | RawPtr (ty : Ty) (m : Mutability)
deriving DecidableEq, Repr

inductive Rvalue where
  | AddressOf (m : Mutability) (p : Place)
  | Aggregate (k : AggregateKind) (ops : List Operand)
  | BinaryOp (op : BinOp) (l r : Operand)
  | CheckedBinaryOp (op : BinOp) (l r : Operand)
  | Cast (k : CastKind) (o : Operand) (ty : Ty)
  | CopyForDeref (p : Place)
  | Discriminant (p : Place)
  | Len (p : Place)
  | Ref (r : Region) (bk : BorrowKind) (p : Place)
  | Repeat (o : Operand) (c : TyConst)
  | ShallowInitBox (o : Operand) (ty : Ty)
  | ThreadLocalRef (d : DefId)
  | NullaryOp (no : NullOp) (ty : Ty)
  | UnaryOp (uo : UnOp) (o : Operand)
  | Use (o : Operand)
deriving DecidableEq, Repr

/-- Stable fake-read causes; the ForMatchedPlace and ForLet payloads are
opaque fields of the stable schema, kept as strings. -/
inductive FakeReadCause where
  | ForMatchGuard
  | ForMatchedPlace (payload : String)
  | ForGuardBinding
  | ForLet (payload : String)
  | ForIndex
deriving DecidableEq, Repr

inductive RetagKind where
  | FnEntry | TwoPhase | Raw | Default
deriving DecidableEq, Repr

/-- Stable user-type projection: its projection payload is an opaque field. -/
structure UserTypeProjection where
  base : Nat
  projs : String
deriving DecidableEq, Repr

structure CopyNonOverlapping where
  src : Operand
  dst : Operand
  count : Operand
deriving DecidableEq, Repr

inductive NonDivergingIntrinsic where
  | Assume (o : Operand)
  | CopyNonOverlapping (c : CopyNonOverlapping)
deriving DecidableEq, Repr

inductive StatementKind where
  | Assign (p : Place) (rv : Rvalue)
  | FakeRead (cause : FakeReadCause) (p : Place)
  | SetDiscriminant (p : Place) (variant_index : VariantIdx)
  | Deinit (p : Place)
  | StorageLive (l : Nat)
  | StorageDead (l : Nat)
  | Retag (k : RetagKind) (p : Place)
  | PlaceMention (p : Place)
  | AscribeUserType (p : Place) (projections : UserTypeProjection) (v : Variance)
  | Coverage (payload : String)
  | Intrinsic (i : NonDivergingIntrinsic)
  | ConstEvalCounter
  | Nop
deriving DecidableEq, Repr

structure Statement where
  kind : StatementKind
  span : Span
deriving DecidableEq, Repr

inductive UnwindAction where
  | Continue
  | Unreachable
  | Terminate
  | Cleanup (bb : Nat)
deriving DecidableEq, Repr

structure SwitchTargets where
  branches : List (Nat × Nat)
  otherwise : Nat
deriving DecidableEq, Repr

inductive AssertMessage where
  | BoundsCheck (len index : Operand)
  | Overflow (op : BinOp) (l r : Operand)
  | OverflowNeg (o : Operand)
  | DivisionByZero (o : Operand)
  | RemainderByZero (o : Operand)
  | ResumedAfterReturn (k : CoroutineKind)
  | ResumedAfterPanic (k : CoroutineKind)
  | MisalignedPointerDereference (required found : Operand)
deriving DecidableEq, Repr

inductive TerminatorKind where
  | Goto (target : Nat)
  | SwitchInt (discr : Operand) (targets : SwitchTargets)
  | Resume
  | Abort
  | Return
  | Unreachable
  | Drop (place : Place) (target : Nat) (unwind : UnwindAction)
  | Call (func : Operand) (args : List Operand) (destination : Place)
      (target : Option Nat) (unwind : UnwindAction)
  | Assert (cond : Operand) (expected : Bool) (msg : AssertMessage)
      (target : Nat) (unwind : UnwindAction)
  | InlineAsm (payload : String)
deriving DecidableEq, Repr

structure Terminator where
  kind : TerminatorKind
  span : Span
deriving DecidableEq, Repr

structure LocalDecl where
  ty : Ty
  span : Span
  mutability : Mutability
deriving DecidableEq, Repr

structure BasicBlock where
  statements : List Statement
  terminator : Terminator
deriving DecidableEq, Repr

/-- Stable body: basic blocks, locals (return local, arguments, then the
rest) and the argument count. -/
structure Body where
  blocks : List BasicBlock
  locals : List LocalDecl
  arg_count : Nat
deriving DecidableEq, Repr

/-! ## Internal representation (rustc side)

Mirrors of the internal data structures that the translator constructs.
Arena handles with no structure relevant to translation (ty consts,
unevaluated consts, const values, instances, alloc ids, adt defs) are
natural-number handles. -/

namespace Internal

abbrev DefId := Nat

abbrev TyConst := Nat

abbrev AllocId := Nat

abbrev InstanceH := Nat

abbrev AdtDefH := Nat

abbrev VariantIdx := Nat

inductive IntTy where
  | Isize | I8 | I16 | I32 | I64 | I128
deriving DecidableEq, Repr, Fintype

inductive UintTy where
  | Usize | U8 | U16 | U32 | U64 | U128
deriving DecidableEq, Repr, Fintype

inductive FloatTy where
  | F16 | F32 | F64 | F128
deriving DecidableEq, Repr, Fintype

inductive Mutability where
  | Not | Mut
deriving DecidableEq, Repr, Fintype

inductive Movability where
  | Static | Movable
deriving DecidableEq, Repr, Fintype

inductive Safety where
  | Unsafe | Safe
deriving DecidableEq, Repr, Fintype

inductive Abi where
  | Rust
  | C (unwind : Bool)
  | Cdecl (unwind : Bool)
  | Stdcall (unwind : Bool)
  | Fastcall (unwind : Bool)
  | Vectorcall (unwind : Bool)
  | Thiscall (unwind : Bool)
  | Aapcs (unwind : Bool)
  | Win64 (unwind : Bool)
  | SysV64 (unwind : Bool)
  | PtxKernel
  | Msp430Interrupt
  | X86Interrupt
  | EfiApi
  | AvrInterrupt
  | AvrNonBlockingInterrupt
  | CCmseNonSecureCall
  | System (unwind : Bool)
  | RustIntrinsic
  | RustCall
  | Unadjusted
  | RustCold
  | RiscvInterruptM
  | RiscvInterruptS
deriving DecidableEq, Repr, Fintype

inductive Variance where
  | Covariant | Invariant | Contravariant | Bivariant
deriving DecidableEq, Repr, Fintype

inductive ClosureKind where
  | Fn | FnMut | FnOnce
deriving DecidableEq, Repr, Fintype

inductive DynKind where
  | Dyn | DynStar
deriving DecidableEq, Repr, Fintype

inductive CoroutineDesugaring where
  | Async | Gen | AsyncGen
deriving DecidableEq, Repr

inductive CoroutineSource where
  | Block | Closure | Fn
deriving DecidableEq, Repr

inductive CoroutineKind where
  | Desugared (d : CoroutineDesugaring) (s : CoroutineSource)
  | Coroutine (m : Movability)
deriving DecidableEq, Repr

/-- Internal regions: the translator only ever produces ReErased, but the
internal type has further inhabitants. -/
inductive Region where
  | ReErased
  | ReStatic
  | ReBound (dbIndex : Nat)
  | ReEarlyParam (index : Nat)
deriving DecidableEq, Repr

inductive BoundTyKind where
  | Anon
  | Param (d : DefId) (sym : String)
deriving DecidableEq, Repr

inductive BoundRegionKind where
  | BrAnon
  | BrNamed (d : DefId) (sym : String)
  | BrEnv
deriving DecidableEq, Repr

inductive BoundVariableKind where
  | Ty (k : BoundTyKind)
  | Region (k : BoundRegionKind)
  | Const
deriving DecidableEq, Repr

/-- Internal binder: a value with its interned bound-variable kinds. -/
structure Binder (α : Type) where
  value : α
  bound_vars : List BoundVariableKind
deriving DecidableEq, Repr

/-- Internal pattern kind (interning by mk_pat is the identity here). -/
inductive PatternKind where
  | Range (pstart pend : Option TyConst) (include_end : Bool)
deriving DecidableEq, Repr

mutual

/-- Internal TyKind; an interned internal Ty is identified with its kind. -/
inductive TyKind where
  | Bool
  | Char
  | Int (t : IntTy)
  | Uint (t : UintTy)
  | Float (t : FloatTy)
  | Never
  | Array (ty : TyKind) (c : TyConst)
  | Pat (ty : TyKind) (p : PatternKind)
  | Adt (a : AdtDefH) (args : List GenericArg)
  | Str
  | Slice (ty : TyKind)
  | RawPtr (ty : TyKind) (m : Mutability)
  | Ref (r : Region) (ty : TyKind) (m : Mutability)
  | Foreign (d : DefId)
  | FnDef (d : DefId) (args : List GenericArg)
  | FnPtr (sig : Binder FnSig)
  | Closure (d : DefId) (args : List GenericArg)
  | Coroutine (d : DefId) (args : List GenericArg)
  | CoroutineWitness (d : DefId) (args : List GenericArg)
  | Dynamic (preds : List (Binder ExistentialPredicate)) (r : Region) (k : DynKind)
  | Tuple (tys : List TyKind)

inductive GenericArg where
  | Lifetime (r : Region)
  | Ty (ty : TyKind)
  | Const (c : TyConst)

inductive FnSig where
  | mk (inputs_and_output : List TyKind) (c_variadic : Bool)
      (safety : Safety) (abi : Abi)

inductive ExistentialTraitRef where
  | mk (def_id : DefId) (args : List GenericArg)

inductive ExistentialProjection where
  | mk (def_id : DefId) (args : List GenericArg) (term : Term)

inductive Term where
  | Ty (ty : TyKind)
  | Const (c : TyConst)

inductive ExistentialPredicate where
  | Trait (tr : ExistentialTraitRef)
  | Projection (p : ExistentialProjection)
  | AutoTrait (d : DefId)

end

/-- Internal spans; dummy is the fixed DUMMY_SP sentinel. -/
inductive Span where
  | dummy
  | sp (n : Nat)
deriving DecidableEq, Repr

/-- Internal source info; scope 0 is the outermost source scope. -/
structure SourceInfo where
  span : Span
  scope : Nat
deriving DecidableEq, Repr

/-- SourceInfo.outermost from the internal model: the given span paired
with the outermost source scope. -/
def SourceInfo.outermost (s : Span) : SourceInfo := ⟨s, 0⟩

/-- Internal unevaluated-constant and const-value payloads are opaque
arena handles. -/
abbrev UnevaluatedConst := Nat

abbrev ConstValue := Nat

/-- Internal MIR constant (rustc_middle::mir::Const). -/
inductive Const where
  | Ty (ty : TyKind) (c : TyConst)
  | Unevaluated (u : UnevaluatedConst) (ty : TyKind)
  | Val (v : ConstValue) (ty : TyKind)

inductive BinOp where
  | Add | AddUnchecked
  | Sub | SubUnchecked
  | Mul | MulUnchecked
  | Div | Rem
  | BitXor | BitAnd | BitOr
  | Shl | ShlUnchecked
  | Shr | ShrUnchecked
  | Eq | Lt | Le | Ne | Ge | Gt
  | Cmp
  | Offset
deriving DecidableEq, Repr, Fintype

inductive UnOp where
  | Not | Neg | PtrMetadata
deriving DecidableEq, Repr

inductive FakeBorrowKind where
  | Deep | Shallow
deriving DecidableEq, Repr

inductive MutBorrowKind where
  | Default | TwoPhaseBorrow | ClosureCapture
deriving DecidableEq, Repr

inductive BorrowKind where
  | Shared
  | Fake (k : FakeBorrowKind)
  | Mut (kind : MutBorrowKind)
deriving DecidableEq, Repr

inductive PointerCoercion where
  | ReifyFnPointer
  | UnsafeFnPointer
  | ClosureFnPointer (s : Safety)
  | MutToConstPointer
  | ArrayToPointer
  | Unsize
deriving DecidableEq, Repr

/-- Internal cast kinds; note the stable PointerExposeAddress tag maps to
the internal PointerExposeProvenance name. -/
inductive CastKind where
  | PointerExposeProvenance
  | PointerWithExposedProvenance
  | PointerCoercion (pc : PointerCoercion)
  | DynStar
  | IntToInt
  | FloatToInt
  | FloatToFloat
  | IntToFloat
  | PtrToPtr
  | FnPtrToPtr
  | Transmute
deriving DecidableEq, Repr

inductive NullOp where
  | SizeOf
  | AlignOf
  | OffsetOf (offsets : List (VariantIdx × Nat))
  | UbChecks
deriving DecidableEq, Repr

/-- Internal place projections; Downcast carries an optional symbol name,
which the translator always leaves empty. -/
inductive PlaceElem where
  | Deref
  | Field (idx : Nat) (ty : TyKind)
  | Index (l : Nat)
  | ConstantIndex (offset min_length : Nat) (from_end : Bool)
  | Subslice (sfrom sto : Nat) (from_end : Bool)
  | Downcast (sym : Option String) (idx : VariantIdx)
  | OpaqueCast (ty : TyKind)
  | Subtype (ty : TyKind)

structure Place where
  locl : Nat
  projection : List PlaceElem

structure ConstOperand where
  span : Span
  user_ty : Option Nat
  const_ : Const

inductive Operand where
  | Copy (p : Place)
  | Move (p : Place)
  | Constant (co : ConstOperand)

/-- Internal aggregate kinds; the Adt payload is a DefId, and note that the
internal Coroutine aggregate has no movability component at all. -/
inductive AggregateKind where
  | Array (ty : TyKind)
  | Tuple
  | Adt (d : DefId) (v : VariantIdx) (args : List GenericArg)
      (user_ty_index : Option Nat) (field_idx : Option Nat)
  | Closure (d : DefId) (args : List GenericArg)
  | Coroutine (d : DefId) (args : List GenericArg)
  | RawPtr (ty : TyKind) (m : Mutability)

inductive Rvalue where
  | AddressOf (m : Mutability) (p : Place)
  | Aggregate (k : AggregateKind) (ops : List Operand)
  | BinaryOp (op : BinOp) (l r : Operand)
  | Cast (k : CastKind) (o : Operand) (ty : TyKind)
  | CopyForDeref (p : Place)
  | Discriminant (p : Place)
  | Len (p : Place)
  | Ref (r : Region) (bk : BorrowKind) (p : Place)
  | Repeat (o : Operand) (c : TyConst)
  | ShallowInitBox (o : Operand) (ty : TyKind)
  | ThreadLocalRef (d : DefId)
  | NullaryOp (no : NullOp) (ty : TyKind)
  | UnaryOp (uo : UnOp) (o : Operand)
  | Use (o : Operand)

/-- Internal fake-read causes; the variants with payloads exist internally
but are never produced by the translator. -/
inductive FakeReadCause where
  | ForMatchGuard
  | ForMatchedPlace (d : Option DefId)
  | ForGuardBinding
  | ForLet (d : Option DefId)
  | ForIndex
deriving DecidableEq, Repr

inductive RetagKind where
  | FnEntry | TwoPhase | Raw | Default
deriving DecidableEq, Repr

/-- Internal user-type projection; never constructed by the translator. -/
inductive UserTypeProjection where
  | mk (base : Nat) (projs : List Nat)
deriving DecidableEq, Repr

structure CopyNonOverlapping where
  src : Operand
  dst : Operand
  count : Operand

inductive NonDivergingIntrinsic where
  | Assume (o : Operand)
  | CopyNonOverlapping (c : CopyNonOverlapping)

/-- Internal local-info payloads behind ClearCrossCrate. -/
inductive LocalInfo where
  | Boring
  | Other
deriving DecidableEq, Repr

inductive ClearCrossCrate (α : Type) where
  | Clear
  | Set (v : α)
deriving DecidableEq, Repr

inductive StatementKind where
  | Assign (p : Place) (rv : Rvalue)
  | FakeRead (cause : FakeReadCause) (p : Place)
  | SetDiscriminant (p : Place) (variant_index : VariantIdx)
  | Deinit (p : Place)
  | StorageLive (l : Nat)
  | StorageDead (l : Nat)
  | Retag (k : RetagKind) (p : Place)
  | PlaceMention (p : Place)
  | AscribeUserType (p : Place) (projections : UserTypeProjection) (v : Variance)
  | Intrinsic (i : NonDivergingIntrinsic)
  | ConstEvalCounter
  | Nop

structure Statement where
  source_info : SourceInfo
  kind : StatementKind

inductive UnwindTerminateReason where
  | Abi
  | InCleanup
deriving DecidableEq, Repr

inductive UnwindAction where
  | Continue
  | Unreachable
  | Terminate (reason : UnwindTerminateReason)
  | Cleanup (bb : Nat)
deriving DecidableEq, Repr

structure SwitchTargets where
  branches : List (Nat × Nat)
  otherwise : Nat
deriving DecidableEq, Repr

inductive CallSource where
  | Normal
  | Misc
deriving DecidableEq, Repr

inductive AssertMessage where
  | BoundsCheck (len index : Operand)
  | Overflow (op : BinOp) (l r : Operand)
  | OverflowNeg (o : Operand)
  | DivisionByZero (o : Operand)
  | RemainderByZero (o : Operand)
  | ResumedAfterReturn (k : CoroutineKind)
  | ResumedAfterPanic (k : CoroutineKind)
  | MisalignedPointerDereference (required found : Operand)

/-- Internal terminator kinds; call arguments are spanned operands. -/
inductive TerminatorKind where
  | Goto (target : Nat)
  | SwitchInt (discr : Operand) (targets : SwitchTargets)
  | UnwindResume
  | UnwindTerminate (reason : UnwindTerminateReason)
  | Return
  | Unreachable
  | Drop (place : Place) (target : Nat) (unwind : UnwindAction) (replace : Bool)
  | Call (func : Operand) (args : List (Operand × Span)) (destination : Place)
      (target : Option Nat) (unwind : UnwindAction)
      (call_source : CallSource) (fn_span : Span)
  | Assert (cond : Operand) (expected : Bool) (msg : AssertMessage)
      (target : Nat) (unwind : UnwindAction)

structure Terminator where
  source_info : SourceInfo
  kind : TerminatorKind

structure LocalDecl where
  mutability : Mutability
  local_info : ClearCrossCrate LocalInfo
  ty : TyKind
  user_ty : Option Nat
  source_info : SourceInfo

structure BasicBlockData where
  statements : List Statement
  terminator : Option Terminator
  is_cleanup : Bool

/-- Internal body, restricted to the arguments of the Body constructor the
translator invokes; bookkeeping tables with no stable counterpart are
element-opaque lists. -/
structure Body where
  source : DefId
  basic_blocks : List BasicBlockData
  source_scopes : List Nat
  local_decls : List LocalDecl
  user_type_annotations : List Nat
  arg_count : Nat
  var_debug_info : List Nat
  span : Span
  coroutine : Option Nat
  tainted_by_errors : Option Nat

inductive MonoItem where
  | Fn (i : InstanceH)
  | Static (d : DefId)
deriving DecidableEq, Repr

end Internal

/-! ## Identity table and destination context -/

/-- The per-session identity table (the Tables value threaded by reference
through every translator call); each component maps a stable opaque index
to the internal value registered by the export step. -/
structure Tables where
  def_ids : Nat → Option Internal.DefId
  types : Nat → Option Internal.TyKind
  ty_consts : Nat → Option Internal.TyConst
  mir_consts : Nat → Option Internal.Const
  instances : Nat → Option Internal.InstanceH
  alloc_ids : Nat → Option Internal.AllocId
  spans : Nat → Option Internal.Span

/-- The destination context (TyCtxt): the canonicalizing lift for each
internal sort (tcx.lift, none modelling an unrepresentable value), plus the
adt-def resolver (tcx.adt_def). -/
structure Ctx where
  liftDefId : Internal.DefId → Option Internal.DefId
  liftTy : Internal.TyKind → Option Internal.TyKind
  liftTyConst : Internal.TyConst → Option Internal.TyConst
  liftUneval : Internal.UnevaluatedConst → Option Internal.UnevaluatedConst
  liftConstVal : Internal.ConstValue → Option Internal.ConstValue
  liftInstance : Internal.InstanceH → Option Internal.InstanceH
  liftAllocId : Internal.AllocId → Option Internal.AllocId
  liftArg : Internal.GenericArg → Option Internal.GenericArg
  liftFnSig : Internal.FnSig → Option Internal.FnSig
  adt_def : Internal.DefId → Internal.AdtDefH

/-- An identity-table access: an absent entry is the MissingIdentity
protocol failure. -/
def hlookup (v : Option α) : Except Err α :=
  match v with
  | some x => .ok x
  | none => .error .MissingIdentity

/-- An unwrapped context lift: an unrepresentable value is the LiftFailure
protocol failure. -/
def hlift (v : Option α) : Except Err α :=
  match v with
  | some x => .ok x
  | none => .error .LiftFailure

/-- Element-wise effectful traversal of a list (iter().map().collect() on
fallible element translators), stopping at the first failure. -/
def mapME (f : α → Except Err β) : List α → Except Err (List β)
  | [] => .ok []
  | x :: xs =>
    match f x with
    | .error e => .error e
    | .ok y =>
      match mapME f xs with
      | .error e => .error e
      | .ok ys => .ok (y :: ys)

/-- Effectful traversal of an optional value (Option::map on a fallible
element translator). -/
def optME (f : α → Except Err β) : Option α → Except Err (Option β)
  | none => .ok none
  | some x =>
    match f x with
    | .error e => .error e
    | .ok y => .ok (some y)

/-! ## Entity translators

Each definition below embeds the corresponding RustcInternal::internal
implementation from the source file, in the same order of effects. -/

/-- DefId: lift(tables.def_ids(index)).unwrap(). -/
def DefId.internal (t : Tables) (c : Ctx) (d : DefId) : Except Err Internal.DefId := do
  let h ← hlookup (t.def_ids d)
  hlift (c.liftDefId h)

/-- Region: the translator cannot recover any region content and always
returns the context's canonical erased region. -/
def Region.internal (_r : Region) : Internal.Region :=
  Internal.Region.ReErased

/-- Ty: lift(tables.types(index)).unwrap(). -/
def Ty.internal (t : Tables) (c : Ctx) (ty : Ty) : Except Err Internal.TyKind := do
  let h ← hlookup (t.types ty)
  hlift (c.liftTy h)

/-- TyConst: lift(tables.ty_consts(id)).unwrap(). -/
def TyConst.internal (t : Tables) (c : Ctx) (tc : TyConst) : Except Err Internal.TyConst := do
  let h ← hlookup (t.ty_consts tc.id)
  hlift (c.liftTyConst h)

/-- Span: a direct identity-table access (tables(span)), with no lift. -/
def Span.internal (t : Tables) (s : Span) : Except Err Internal.Span :=
  hlookup (t.spans s)

/-- AllocId: lift(tables.alloc_ids(index)).unwrap(). -/
def AllocId.internal (t : Tables) (c : Ctx) (a : AllocId) : Except Err Internal.AllocId := do
  let h ← hlookup (t.alloc_ids a)
  hlift (c.liftAllocId h)

/-- Instance: lift(tables.instances(index)).unwrap(). -/
def Instance.internal (t : Tables) (c : Ctx) (i : Instance) : Except Err Internal.InstanceH := do
  let h ← hlookup (t.instances i.idef)
  hlift (c.liftInstance h)

/-- VariantIdx: rebuilt from its plain index. -/
def VariantIdx.internal (v : VariantIdx) : Internal.VariantIdx := v

/-- MirConst: look up the registered internal constant, then lift each
component of whichever variant was stored. -/
def MirConst.internal (t : Tables) (c : Ctx) (mc : MirConst) : Except Err Internal.Const :=
  match t.mir_consts mc.id with
  | none => .error .MissingIdentity
  | some cst =>
    match cst with
    | .Ty ty ct =>
      match c.liftTy ty with
      | none => .error .LiftFailure
      | some ty2 =>
        match c.liftTyConst ct with
        | none => .error .LiftFailure
        | some ct2 => .ok (.Ty ty2 ct2)
    | .Unevaluated u ty =>
      match c.liftUneval u with
      | none => .error .LiftFailure
      | some u2 =>
        match c.liftTy ty with
        | none => .error .LiftFailure
        | some ty2 => .ok (.Unevaluated u2 ty2)
    | .Val v ty =>
      match c.liftConstVal v with
      | none => .error .LiftFailure
      | some v2 =>
        match c.liftTy ty with
        | none => .error .LiftFailure
        | some ty2 => .ok (.Val v2 ty2)

/-- Pattern: translate the optional range ends, then intern (mk_pat). -/
def Pattern.internal (t : Tables) (c : Ctx) : Pattern → Except Err Internal.PatternKind
  | .Range pstart pend include_end => do
    let s ← optME (TyConst.internal t c) pstart
    let e ← optME (TyConst.internal t c) pend
    pure (.Range s e include_end)

def IntTy.internal : IntTy → Internal.IntTy
  | .Isize => .Isize
  | .I8 => .I8
  | .I16 => .I16
  | .I32 => .I32
  | .I64 => .I64
  | .I128 => .I128

def UintTy.internal : UintTy → Internal.UintTy
  | .Usize => .Usize
  | .U8 => .U8
  | .U16 => .U16
  | .U32 => .U32
  | .U64 => .U64
  | .U128 => .U128

def FloatTy.internal : FloatTy → Internal.FloatTy
  | .F16 => .F16
  | .F32 => .F32
  | .F64 => .F64
  | .F128 => .F128

def Mutability.internal : Mutability → Internal.Mutability
  | .Not => .Not
  | .Mut => .Mut

def Movability.internal : Movability → Internal.Movability
  | .Static => .Static
  | .Movable => .Movable

def Safety.internal : Safety → Internal.Safety
  | .Unsafe => .Unsafe
  | .Safe => .Safe

def Abi.internal : Abi → Internal.Abi
  | .Rust => .Rust
  | .C unwind => .C unwind
  | .Cdecl unwind => .Cdecl unwind
  | .Stdcall unwind => .Stdcall unwind
  | .Fastcall unwind => .Fastcall unwind
  | .Vectorcall unwind => .Vectorcall unwind
  | .Thiscall unwind => .Thiscall unwind
  | .Aapcs unwind => .Aapcs unwind
  | .Win64 unwind => .Win64 unwind
  | .SysV64 unwind => .SysV64 unwind
  | .PtxKernel => .PtxKernel
  | .Msp430Interrupt => .Msp430Interrupt
  | .X86Interrupt => .X86Interrupt
  | .EfiApi => .EfiApi
  | .AvrInterrupt => .AvrInterrupt
  | .AvrNonBlockingInterrupt => .AvrNonBlockingInterrupt
  | .CCmseNonSecureCall => .CCmseNonSecureCall
  | .System unwind => .System unwind
  | .RustIntrinsic => .RustIntrinsic
  | .RustCall => .RustCall
  | .Unadjusted => .Unadjusted
  | .RustCold => .RustCold
  | .RiscvInterruptM => .RiscvInterruptM
  | .RiscvInterruptS => .RiscvInterruptS

def Variance.internal : Variance → Internal.Variance
  | .Covariant => .Covariant
  | .Invariant => .Invariant
  | .Contravariant => .Contravariant
  | .Bivariant => .Bivariant

def ClosureKind.internal : ClosureKind → Internal.ClosureKind
  | .Fn => .Fn
  | .FnMut => .FnMut
  | .FnOnce => .FnOnce

def DynKind.internal : DynKind → Internal.DynKind
  | .Dyn => .Dyn
  | .DynStar => .DynStar

def CoroutineDesugaring.internal : CoroutineDesugaring → Internal.CoroutineDesugaring
  | .Async => .Async
  | .Gen => .Gen
  | .AsyncGen => .AsyncGen

def CoroutineSource.internal : CoroutineSource → Internal.CoroutineSource
  | .Block => .Block
  | .Closure => .Closure
  | .Fn => .Fn

def CoroutineKind.internal : CoroutineKind → Internal.CoroutineKind
  | .Desugared d s => .Desugared (CoroutineDesugaring.internal d) (CoroutineSource.internal s)
  | .Coroutine m => .Coroutine (Movability.internal m)

/-- Generic argument: translate the payload, then lift the packed argument. -/
def GenericArgKind.internal (t : Tables) (c : Ctx) :
    GenericArgKind → Except Err Internal.GenericArg
  | .Lifetime r => hlift (c.liftArg (.Lifetime (Region.internal r)))
  | .Typ ty => do hlift (c.liftArg (.Ty (← Ty.internal t c ty)))
  | .Const cn => do hlift (c.liftArg (.Const (← TyConst.internal t c cn)))

/-- Generic argument list: element-wise translation reassembled through the
canonical list constructor (mk_args_from_iter). -/
def GenericArgs.internal (t : Tables) (c : Ctx) (args : GenericArgs) :
    Except Err (List Internal.GenericArg) :=
  mapME (GenericArgKind.internal t c) args

def BoundVariableKind.internal (t : Tables) (c : Ctx) :
    BoundVariableKind → Except Err Internal.BoundVariableKind
  | .Ty .Anon => .ok (.Ty .Anon)
  | .Ty (.Param d sym) => do pure (.Ty (.Param (← DefId.internal t c d) sym))
  | .Region .BrAnon => .ok (.Region .BrAnon)
  | .Region (.BrNamed d sym) => do pure (.Region (.BrNamed (← DefId.internal t c d) sym))
  | .Region .BrEnv => .ok (.Region .BrEnv)
  | .Const => .ok .Const

/-- FnSig: translate the type list, rebuild the signature, lift it whole. -/
def FnSig.internal (t : Tables) (c : Ctx) (s : FnSig) : Except Err Internal.FnSig := do
  let io ← mapME (Ty.internal t c) s.inputs_and_output
  hlift (c.liftFnSig (.mk io s.c_variadic (Safety.internal s.safety) (Abi.internal s.abi)))

/-- Binder: bind_with_vars applied to the translated value and the interned
translated bound-variable kinds; the value translator is a parameter, which
specializes the single generic source impl. -/
def Binder.internalWith (t : Tables) (c : Ctx) (f : α → Except Err β) (b : Binder α) :
    Except Err (Internal.Binder β) := do
  let v ← f b.value
  let bvs ← mapME (BoundVariableKind.internal t c) b.bound_vars
  pure ⟨v, bvs⟩

def TermKind.internal (t : Tables) (c : Ctx) : TermKind → Except Err Internal.Term
  | .Typ ty => do pure (.Ty (← Ty.internal t c ty))
  | .Const cn => do pure (.Const (← TyConst.internal t c cn))

def ExistentialTraitRef.internal (t : Tables) (c : Ctx) (e : ExistentialTraitRef) :
    Except Err Internal.ExistentialTraitRef := do
  pure (.mk (← DefId.internal t c e.def_id) (← GenericArgs.internal t c e.generic_args))

def ExistentialProjection.internal (t : Tables) (c : Ctx) (e : ExistentialProjection) :
    Except Err Internal.ExistentialProjection := do
  pure (.mk (← DefId.internal t c e.def_id) (← GenericArgs.internal t c e.generic_args)
    (← TermKind.internal t c e.term))

def ExistentialPredicate.internal (t : Tables) (c : Ctx) :
    ExistentialPredicate → Except Err Internal.ExistentialPredicate
  | .Trait tr => do pure (.Trait (← ExistentialTraitRef.internal t c tr))
  | .Projection p => do pure (.Projection (← ExistentialProjection.internal t c p))
  | .AutoTrait d => do pure (.AutoTrait (← DefId.internal t c d))

/-- AdtDef: tcx.adt_def applied to the translated wrapped DefId. -/
def AdtDef.internal (t : Tables) (c : Ctx) (a : AdtDef) : Except Err Internal.AdtDefH := do
  pure (c.adt_def (← DefId.internal t c a.did))

/-- RigidTy: the type-shape translator; sub-parts first, then the internal
constructor (the coroutine movability argument is dropped by the source). -/
def RigidTy.internal (t : Tables) (c : Ctx) : RigidTy → Except Err Internal.TyKind
  | .Bool => .ok .Bool
  | .Char => .ok .Char
  | .Int i => .ok (.Int (IntTy.internal i))
  | .Uint u => .ok (.Uint (UintTy.internal u))
  | .Float f => .ok (.Float (FloatTy.internal f))
  | .Never => .ok .Never
  | .Array ty cn => do pure (.Array (← Ty.internal t c ty) (← TyConst.internal t c cn))
  | .Pat ty p => do pure (.Pat (← Ty.internal t c ty) (← Pattern.internal t c p))
  | .Adt a args => do pure (.Adt (← AdtDef.internal t c a) (← GenericArgs.internal t c args))
  | .Str => .ok .Str
  | .Slice ty => do pure (.Slice (← Ty.internal t c ty))
  | .RawPtr ty m => do pure (.RawPtr (← Ty.internal t c ty) (Mutability.internal m))
  | .Ref r ty m => do
    pure (.Ref (Region.internal r) (← Ty.internal t c ty) (Mutability.internal m))
  | .Foreign d => do pure (.Foreign (← DefId.internal t c d))
  | .FnDef d args => do
    pure (.FnDef (← DefId.internal t c d) (← GenericArgs.internal t c args))
  | .FnPtr sig => do pure (.FnPtr (← Binder.internalWith t c (FnSig.internal t c) sig))
  | .Closure d args => do
    pure (.Closure (← DefId.internal t c d) (← GenericArgs.internal t c args))
  | .Coroutine d args _mov => do
    pure (.Coroutine (← DefId.internal t c d) (← GenericArgs.internal t c args))
  | .CoroutineWitness d args => do
    pure (.CoroutineWitness (← DefId.internal t c d) (← GenericArgs.internal t c args))
  | .Dynamic preds r k => do
    pure (.Dynamic
      (← mapME (Binder.internalWith t c (ExistentialPredicate.internal t c)) preds)
      (Region.internal r) (DynKind.internal k))
  | .Tuple tys => do pure (.Tuple (← mapME (Ty.internal t c) tys))

/-- MonoItem: functions and statics resolve through the identity table; a
global-assembly item is declared unsupported (unimplemented in the source). -/
def MonoItem.internal (t : Tables) (c : Ctx) : MonoItem → Except Err Internal.MonoItem
  | .Fn i => do pure (.Fn (← Instance.internal t c i))
  | .Static d => do pure (.Static (← DefId.internal t c d))
  | .GlobalAsm _a => .error .UnsupportedConstruct

/-! ## MIR structural translators -/

/-- ProjectionElem: tag-for-tag, numeric bounds passed through unchanged,
carried types resolved through the identity table; Downcast gets no
symbol name. -/
def ProjectionElem.internal (t : Tables) (c : Ctx) :
    ProjectionElem → Except Err Internal.PlaceElem
  | .Deref => .ok .Deref
  | .Field idx ty => do pure (.Field idx (← Ty.internal t c ty))
  | .Index l => .ok (.Index l)
  | .ConstantIndex offset min_length from_end =>
    .ok (.ConstantIndex offset min_length from_end)
  | .Subslice sfrom sto from_end => .ok (.Subslice sfrom sto from_end)
  | .Downcast idx => .ok (.Downcast none (VariantIdx.internal idx))
  | .OpaqueCast ty => do pure (.OpaqueCast (← Ty.internal t c ty))
  | .Subtype ty => do pure (.Subtype (← Ty.internal t c ty))

/-- Place: the local index is rebuilt from its plain value, the projection
sequence is translated element-wise and interned (mk_place_elems). -/
def Place.internal (t : Tables) (c : Ctx) (p : Place) : Except Err Internal.Place :=
  match mapME (ProjectionElem.internal t c) p.projection with
  | .error e => .error e
  | .ok elems => .ok ⟨p.locl, elems⟩

def BinOp.internal : BinOp → Internal.BinOp
  | .Add => .Add
  | .AddUnchecked => .AddUnchecked
  | .Sub => .Sub
  | .SubUnchecked => .SubUnchecked
  | .Mul => .Mul
  | .MulUnchecked => .MulUnchecked
  | .Div => .Div
  | .Rem => .Rem
  | .BitXor => .BitXor
  | .BitAnd => .BitAnd
  | .BitOr => .BitOr
  | .Shl => .Shl
  | .ShlUnchecked => .ShlUnchecked
  | .Shr => .Shr
  | .ShrUnchecked => .ShrUnchecked
  | .Eq => .Eq
  | .Lt => .Lt
  | .Le => .Le
  | .Ne => .Ne
  | .Ge => .Ge
  | .Gt => .Gt
  | .Cmp => .Cmp
  | .Offset => .Offset

def UnOp.internal : UnOp → Internal.UnOp
  | .Not => .Not
  | .Neg => .Neg
  | .PtrMetadata => .PtrMetadata

def FakeBorrowKind.internal : FakeBorrowKind → Internal.FakeBorrowKind
  | .Deep => .Deep
  | .Shallow => .Shallow

def MutBorrowKind.internal : MutBorrowKind → Internal.MutBorrowKind
  | .Default => .Default
  | .TwoPhaseBorrow => .TwoPhaseBorrow
  | .ClosureCapture => .ClosureCapture

def BorrowKind.internal : BorrowKind → Internal.BorrowKind
  | .Shared => .Shared
  | .Fake k => .Fake (FakeBorrowKind.internal k)
  | .Mut kind => .Mut (MutBorrowKind.internal kind)

def PointerCoercion.internal : PointerCoercion → Internal.PointerCoercion
  | .ReifyFnPointer => .ReifyFnPointer
  | .UnsafeFnPointer => .UnsafeFnPointer
  | .ClosureFnPointer s => .ClosureFnPointer (Safety.internal s)
  | .MutToConstPointer => .MutToConstPointer
  | .ArrayToPointer => .ArrayToPointer
  | .Unsize => .Unsize

/-- CastKind: tag-for-tag; PointerExposeAddress is renamed to the internal
PointerExposeProvenance. -/
def CastKind.internal : CastKind → Internal.CastKind
  | .PointerExposeAddress => .PointerExposeProvenance
  | .PointerWithExposedProvenance => .PointerWithExposedProvenance
  | .PointerCoercion pc => .PointerCoercion (PointerCoercion.internal pc)
  | .DynStar => .DynStar
  | .IntToInt => .IntToInt
  | .FloatToInt => .FloatToInt
  | .FloatToFloat => .FloatToFloat
  | .IntToFloat => .IntToFloat
  | .PtrToPtr => .PtrToPtr
  | .FnPtrToPtr => .FnPtrToPtr
  | .Transmute => .Transmute

/-- NullOp: offset lists pass through with indices rebuilt (mk_offset_of). -/
def NullOp.internal : NullOp → Internal.NullOp
  | .SizeOf => .SizeOf
  | .AlignOf => .AlignOf
  | .OffsetOf offsets =>
    .OffsetOf (offsets.map (fun pr => (VariantIdx.internal pr.1, pr.2)))
  | .UbChecks => .UbChecks

/-- ConstOperand: span through the table, user type index unchanged,
constant through the constant translator. -/
def ConstOperand.internal (t : Tables) (c : Ctx) (co : ConstOperand) :
    Except Err Internal.ConstOperand := do
  let sp ← Span.internal t co.span
  let cst ← MirConst.internal t c co.const_
  pure ⟨sp, co.user_ty, cst⟩

def Operand.internal (t : Tables) (c : Ctx) : Operand → Except Err Internal.Operand
  | .Copy p => do pure (.Copy (← Place.internal t c p))
  | .Move p => do pure (.Move (← Place.internal t c p))
  | .Constant co => do pure (.Constant (← ConstOperand.internal t c co))

/-- AggregateKind: the coroutine movability argument is dropped by the
source; the Adt payload goes through the bare DefId translation. -/
def AggregateKind.internal (t : Tables) (c : Ctx) :
    AggregateKind → Except Err Internal.AggregateKind
  | .Array ty => do pure (.Array (← Ty.internal t c ty))
  | .Tuple => .ok .Tuple
  | .Adt a v args user_ty_index field_idx => do
    pure (.Adt (← DefId.internal t c a.did) (VariantIdx.internal v)
      (← GenericArgs.internal t c args) user_ty_index field_idx)
  | .Closure d args => do
    pure (.Closure (← DefId.internal t c d) (← GenericArgs.internal t c args))
  | .Coroutine d args _mov => do
    pure (.Coroutine (← DefId.internal t c d) (← GenericArgs.internal t c args))
  | .RawPtr ty m => do pure (.RawPtr (← Ty.internal t c ty) (Mutability.internal m))

/-- Rvalue: direct structural mapping; the BinaryOp and CheckedBinaryOp
stable variants share one arm and produce the same internal BinaryOp. -/
def Rvalue.internal (t : Tables) (c : Ctx) : Rvalue → Except Err Internal.Rvalue
  | .AddressOf m p => do pure (.AddressOf (Mutability.internal m) (← Place.internal t c p))
  | .Aggregate k ops => do
    pure (.Aggregate (← AggregateKind.internal t c k) (← mapME (Operand.internal t c) ops))
  | .BinaryOp op l r | .CheckedBinaryOp op l r => do
    pure (.BinaryOp (BinOp.internal op) (← Operand.internal t c l)
      (← Operand.internal t c r))
  | .Cast k o ty => do
    pure (.Cast (CastKind.internal k) (← Operand.internal t c o) (← Ty.internal t c ty))
  | .CopyForDeref p => do pure (.CopyForDeref (← Place.internal t c p))
  | .Discriminant p => do pure (.Discriminant (← Place.internal t c p))
  | .Len p => do pure (.Len (← Place.internal t c p))
  | .Ref r bk p => do
    pure (.Ref (Region.internal r) (BorrowKind.internal bk) (← Place.internal t c p))
  | .Repeat o cn => do pure (.Repeat (← Operand.internal t c o) (← TyConst.internal t c cn))
  | .ShallowInitBox o ty => do
    pure (.ShallowInitBox (← Operand.internal t c o) (← Ty.internal t c ty))
  | .ThreadLocalRef d => do pure (.ThreadLocalRef (← DefId.internal t c d))
  | .NullaryOp no ty => do
    pure (.NullaryOp (NullOp.internal no) (← Ty.internal t c ty))
  | .UnaryOp uo o => do pure (.UnaryOp (UnOp.internal uo) (← Operand.internal t c o))
  | .Use o => do pure (.Use (← Operand.internal t c o))

/-- FakeReadCause: ForMatchedPlace and ForLet carry opaque payloads and
cannot be converted back (unimplemented in the source). -/
def FakeReadCause.internal : FakeReadCause → Except Err Internal.FakeReadCause
  | .ForMatchGuard => .ok .ForMatchGuard
  | .ForMatchedPlace _payload => .error .UnsupportedConstruct
  | .ForGuardBinding => .ok .ForGuardBinding
  | .ForLet _payload => .error .UnsupportedConstruct
  | .ForIndex => .ok .ForIndex

def RetagKind.internal : RetagKind → Internal.RetagKind
  | .FnEntry => .FnEntry
  | .TwoPhase => .TwoPhase
  | .Raw => .Raw
  | .Default => .Default

/-- UserTypeProjection: its projection payload is opaque and cannot be
converted back (unimplemented in the source). -/
def UserTypeProjection.internal (_t : Tables) (_c : Ctx) (_u : UserTypeProjection) :
    Except Err Internal.UserTypeProjection :=
  .error .UnsupportedConstruct

def CopyNonOverlapping.internal (t : Tables) (c : Ctx) (cno : CopyNonOverlapping) :
    Except Err Internal.CopyNonOverlapping := do
  let src ← Operand.internal t c cno.src
  let dst ← Operand.internal t c cno.dst
  let count ← Operand.internal t c cno.count
  pure ⟨src, dst, count⟩

def NonDivergingIntrinsic.internal (t : Tables) (c : Ctx) :
    NonDivergingIntrinsic → Except Err Internal.NonDivergingIntrinsic
  | .Assume o => do pure (.Assume (← Operand.internal t c o))
  | .CopyNonOverlapping cno => do
    pure (.CopyNonOverlapping (← CopyNonOverlapping.internal t c cno))

/-- StatementKind: tag-for-tag for the well-defined cases; Coverage carries
an opaque payload and cannot be converted back (unimplemented). -/
def StatementKind.internal (t : Tables) (c : Ctx) :
    StatementKind → Except Err Internal.StatementKind
  | .Assign p rv => do
    pure (.Assign (← Place.internal t c p) (← Rvalue.internal t c rv))
  | .FakeRead cause p => do
    let cz ← FakeReadCause.internal cause
    let pz ← Place.internal t c p
    pure (.FakeRead cz pz)
  | .SetDiscriminant p variant_index => do
    pure (.SetDiscriminant (← Place.internal t c p) (VariantIdx.internal variant_index))
  | .Deinit p => do pure (.Deinit (← Place.internal t c p))
  | .StorageLive l => .ok (.StorageLive l)
  | .StorageDead l => .ok (.StorageDead l)
  | .Retag k p => do pure (.Retag (RetagKind.internal k) (← Place.internal t c p))
  | .PlaceMention p => do pure (.PlaceMention (← Place.internal t c p))
  | .AscribeUserType p projections v => do
    let pz ← Place.internal t c p
    let uz ← UserTypeProjection.internal t c projections
    pure (.AscribeUserType pz uz (Variance.internal v))
  | .Coverage _payload => .error .UnsupportedConstruct
  | .Intrinsic i => do pure (.Intrinsic (← NonDivergingIntrinsic.internal t c i))
  | .ConstEvalCounter => .ok .ConstEvalCounter
  | .Nop => .ok .Nop

/-- Statement: outermost source info built from the span, then the kind. -/
def Statement.internal (t : Tables) (c : Ctx) (s : Statement) :
    Except Err Internal.Statement := do
  let sp ← Span.internal t s.span
  let k ← StatementKind.internal t c s.kind
  pure ⟨Internal.SourceInfo.outermost sp, k⟩

/-- UnwindAction: Terminate receives the documented default termination
reason (Abi). -/
def UnwindAction.internal : UnwindAction → Internal.UnwindAction
  | .Continue => .Continue
  | .Unreachable => .Unreachable
  | .Terminate => .Terminate .Abi
  | .Cleanup bb => .Cleanup bb

def SwitchTargets.internal (st : SwitchTargets) : Internal.SwitchTargets :=
  ⟨st.branches, st.otherwise⟩

def AssertMessage.internal (t : Tables) (c : Ctx) :
    AssertMessage → Except Err Internal.AssertMessage
  | .BoundsCheck len index => do
    pure (.BoundsCheck (← Operand.internal t c len) (← Operand.internal t c index))
  | .Overflow op l r => do
    pure (.Overflow (BinOp.internal op) (← Operand.internal t c l)
      (← Operand.internal t c r))
  | .OverflowNeg o => do pure (.OverflowNeg (← Operand.internal t c o))
  | .DivisionByZero o => do pure (.DivisionByZero (← Operand.internal t c o))
  | .RemainderByZero o => do pure (.RemainderByZero (← Operand.internal t c o))
  | .ResumedAfterReturn k => .ok (.ResumedAfterReturn (CoroutineKind.internal k))
  | .ResumedAfterPanic k => .ok (.ResumedAfterPanic (CoroutineKind.internal k))
  | .MisalignedPointerDereference required found => do
    pure (.MisalignedPointerDereference (← Operand.internal t c required)
      (← Operand.internal t c found))

/-- TerminatorKind: tag-for-tag; Abort becomes UnwindTerminate with the
default Abi reason; Call gets dummy-spanned arguments, the Misc call source
and the dummy fn span; Drop gets replace false; InlineAsm is unsupported
(todo in the source). -/
def TerminatorKind.internal (t : Tables) (c : Ctx) :
    TerminatorKind → Except Err Internal.TerminatorKind
  | .Goto target => .ok (.Goto target)
  | .SwitchInt discr targets => do
    pure (.SwitchInt (← Operand.internal t c discr) (SwitchTargets.internal targets))
  | .Resume => .ok .UnwindResume
  | .Abort => .ok (.UnwindTerminate .Abi)
  | .Return => .ok .Return
  | .Unreachable => .ok .Unreachable
  | .Drop place target unwind => do
    pure (.Drop (← Place.internal t c place) target (UnwindAction.internal unwind) false)
  | .Call func args destination target unwind => do
    let f ← Operand.internal t c func
    let ars ← mapME (fun a => do pure ((← Operand.internal t c a), Internal.Span.dummy)) args
    let d ← Place.internal t c destination
    pure (.Call f ars d target (UnwindAction.internal unwind) .Misc .dummy)
  | .Assert cond expected msg target unwind => do
    let cz ← Operand.internal t c cond
    let mz ← AssertMessage.internal t c msg
    pure (.Assert cz expected mz target (UnwindAction.internal unwind))
  | .InlineAsm _payload => .error .UnsupportedConstruct

/-- Terminator: outermost source info built from the span, then the kind. -/
def Terminator.internal (t : Tables) (c : Ctx) (tm : Terminator) :
    Except Err Internal.Terminator := do
  let sp ← Span.internal t tm.span
  let k ← TerminatorKind.internal t c tm.kind
  pure ⟨Internal.SourceInfo.outermost sp, k⟩

/-- LocalDecl: mutability and type from the stable input, boring local
info, no user type, outermost source info from the span. -/
def LocalDecl.internal (t : Tables) (c : Ctx) (l : LocalDecl) :
    Except Err Internal.LocalDecl := do
  let ty ← Ty.internal t c l.ty
  let sp ← Span.internal t l.span
  pure ⟨Mutability.internal l.mutability, .Set .Boring, ty, none,
    Internal.SourceInfo.outermost sp⟩

/-- Basic block assembly inside Body::internal: statements element-wise,
then the terminator, never a cleanup block. -/
def BasicBlock.internal (t : Tables) (c : Ctx) (bb : BasicBlock) :
    Except Err Internal.BasicBlockData := do
  let ss ← mapME (Statement.internal t c) bb.statements
  let tm ← Terminator.internal t c bb.terminator
  pure ⟨ss, some tm, false⟩

/-- Body: blocks and locals translated structurally from the stable input;
every constructor argument with no stable counterpart receives its
empty or default placeholder (crate-root source, empty source scopes,
empty user-type annotation table, empty var-debug-info, dummy span, no
coroutine info, no taint). -/
def Body.internal (t : Tables) (c : Ctx) (b : Body) : Except Err Internal.Body :=
  match mapME (BasicBlock.internal t c) b.blocks with
  | .error e => .error e
  | .ok bbs =>
    match mapME (LocalDecl.internal t c) b.locals with
    | .error e => .error e
    | .ok lds => .ok ⟨0, bbs, [], lds, [], b.arg_count, [], .dummy, none, none⟩

/-! ## Lookup-then-lift comparison definitions (spec wording)

The specification describes constant and allocation translation as exactly
an identity-table lookup followed by one context lift; the definitions
below transcribe that wording for comparison with the source-derived
translators above. -/

/-- Modelled from the spec: the context lifter for whole MIR constants
(the compiler's internal lift implementation is not part of the studied
source); it rehomes a constant by lifting each component of its variant. -/
def Ctx.liftConst (c : Ctx) : Internal.Const → Option Internal.Const
  | .Ty ty ct =>
    match c.liftTy ty, c.liftTyConst ct with
    | some ty2, some ct2 => some (.Ty ty2 ct2)
    | _, _ => none
  | .Unevaluated u ty =>
    match c.liftUneval u, c.liftTy ty with
    | some u2, some ty2 => some (.Unevaluated u2 ty2)
    | _, _ => none
  | .Val v ty =>
    match c.liftConstVal v, c.liftTy ty with
    | some v2, some ty2 => some (.Val v2 ty2)
    | _, _ => none

/-- Spec wording for typed constants: identity-table lookup on the stable
handle, then one context lift. -/
def tyConstLookupThenLift (t : Tables) (c : Ctx) (tc : TyConst) :
    Except Err Internal.TyConst := do
  let h ← hlookup (t.ty_consts tc.id)
  hlift (c.liftTyConst h)

/-- Spec wording for allocation identifiers: identity-table lookup on the
stable handle, then one context lift. -/
def allocIdLookupThenLift (t : Tables) (c : Ctx) (a : AllocId) :
    Except Err Internal.AllocId := do
  let h ← hlookup (t.alloc_ids a)
  hlift (c.liftAllocId h)

/-- Spec wording for MIR-level constants: identity-table lookup on the
stable handle, then one whole-value context lift, with no structural
reconstruction. -/
def mirConstLookupThenLift (t : Tables) (c : Ctx) (mc : MirConst) :
    Except Err Internal.Const := do
  let h ← hlookup (t.mir_consts mc.id)
  hlift (c.liftConst h)

/-! ## Helper lemmas on the effectful traversal -/

theorem mapME_length {f : α → Except Err β} :
    ∀ {l : List α} {l2 : List β}, mapME f l = .ok l2 → l2.length = l.length := by
  intro l
  induction l with
  | nil =>
    intro l2 h
    simp only [mapME] at h
    cases h
    rfl
  | cons x xs ih =>
    intro l2 h
    simp only [mapME] at h
    cases hx : f x with
    | error e => rw [hx] at h; cases h
    | ok y =>
      rw [hx] at h
      cases hxs : mapME f xs with
      | error e => rw [hxs] at h; cases h
      | ok ys =>
        rw [hxs] at h
        cases h
        simp [ih hxs]

theorem mapME_get {f : α → Except Err β} :
    ∀ {l : List α} {l2 : List β}, mapME f l = .ok l2 →
      ∀ (i : Nat) (h1 : i < l.length) (h2 : i < l2.length),
        f (l.get ⟨i, h1⟩) = .ok (l2.get ⟨i, h2⟩) := by
  intro l
  induction l with
  | nil =>
    intro l2 _ i h1
    exact absurd h1 (by simp)
  | cons x xs ih =>
    intro l2 h i h1 h2
    simp only [mapME] at h
    cases hx : f x with
    | error e => rw [hx] at h; cases h
    | ok y =>
      rw [hx] at h
      cases hxs : mapME f xs with
      | error e => rw [hxs] at h; cases h
      | ok ys =>
        rw [hxs] at h
        cases h
        cases i with
        | zero => simpa using hx
        | succ j =>
          have h1j : j < xs.length := by simpa using h1
          have h2j : j < ys.length := by simpa using h2
          simpa using ih hxs j h1j h2j

/-! ## Concrete session fixtures used by scenario clauses and witnesses -/

/-- A small identity table: index 0 registers a DefId, a Bool type, a span,
a ty const, a const, an instance and an alloc id; type index 1 registers a
two-field tuple type and type index 2 its second field. -/
def TW : Tables where
  def_ids := fun n => match n with | 0 => some 0 | _ => none
  types := fun n =>
    match n with
    | 0 => some .Bool
    | 1 => some (.Tuple [.Uint .U8, .Int .I32])
    | 2 => some (.Int .I32)
    | _ => none
  ty_consts := fun n => match n with | 0 => some 7 | _ => none
  mir_consts := fun n => match n with | 0 => some (.Val 3 .Bool) | _ => none
  instances := fun n => match n with | 0 => some 4 | _ => none
  alloc_ids := fun n => match n with | 0 => some 5 | _ => none
  spans := fun n => match n with | 0 => some (.sp 11) | _ => none

/-- A context whose lifts all succeed unchanged (every value already lives
in the destination context). -/
def CW : Ctx where
  liftDefId := some
  liftTy := some
  liftTyConst := some
  liftUneval := some
  liftConstVal := some
  liftInstance := some
  liftAllocId := some
  liftArg := some
  liftFnSig := some
  adt_def := fun d => d

/-- Stable place fixture for the two-field-tuple field-projection scenario. -/
def P5 : Place := ⟨0, [.Field 2 2]⟩

/-- Internal place expected from translating P5 under TW and CW. -/
def IP5 : Internal.Place := ⟨0, [.Field 2 (.Int .I32)]⟩

/-- Stable body fixture: one block with a bare return, one immutable local
of the registered Bool type, one argument. -/
def B8 : Body := ⟨[⟨[], ⟨.Return, 0⟩⟩], [⟨0, 0, .Not⟩], 1⟩

/-- Internal body expected from translating B8 under TW and CW. -/
def IB8 : Internal.Body :=
  ⟨0, [⟨[], some ⟨⟨.sp 11, 0⟩, .Return⟩, false⟩], [],
    [⟨.Not, .Set .Boring, .Bool, none, ⟨.sp 11, 0⟩⟩], [], 1, [], .dummy, none, none⟩

/-! ## Claim theorems -/

/-- C1: for every stable region value, including bound and existential
(placeholder) regions, the region translator returns the canonical erased
region of the destination context, and the result is independent of the
input region's contents. -/
theorem c1_region_always_erased :
    (∀ r : Region, Region.internal r = Internal.Region.ReErased) ∧
    (∀ r1 r2 : Region, Region.internal r1 = Region.internal r2) :=
  ⟨fun _ => rfl, fun _ _ => rfl⟩

/-- C2: for every binary operator and operands, translating the stable
rvalues BinaryOp(op, l, r) and CheckedBinaryOp(op, l, r) produces the same
internal rvalue, so the checked and unchecked forms yield the same internal
operator tag. -/
theorem c2_checked_unchecked_merge :
    ∀ (t : Tables) (c : Ctx) (op : BinOp) (l r : Operand),
      Rvalue.internal t c (.BinaryOp op l r) =
        Rvalue.internal t c (.CheckedBinaryOp op l r) :=
  fun _ _ _ _ _ => rfl

/-- C3: every stable node whose payload is declared unsupported or opaque —
fake-read causes ForMatchedPlace and ForLet (also inside a FakeRead
statement), a coverage statement, a user-type projection, and a
global-assembly monomorphization item — fails with UnsupportedConstruct and
never returns a substituted value. -/
theorem c3_opaque_fields_unsupported :
    (∀ payload : String,
        FakeReadCause.internal (.ForMatchedPlace payload) =
          .error .UnsupportedConstruct) ∧
    (∀ payload : String,
        FakeReadCause.internal (.ForLet payload) = .error .UnsupportedConstruct) ∧
    (∀ (t : Tables) (c : Ctx) (payload : String) (p : Place),
        StatementKind.internal t c (.FakeRead (.ForMatchedPlace payload) p) =
          .error .UnsupportedConstruct) ∧
    (∀ (t : Tables) (c : Ctx) (payload : String) (p : Place),
        StatementKind.internal t c (.FakeRead (.ForLet payload) p) =
          .error .UnsupportedConstruct) ∧
    (∀ (t : Tables) (c : Ctx) (payload : String),
        StatementKind.internal t c (.Coverage payload) = .error .UnsupportedConstruct) ∧
    (∀ (t : Tables) (c : Ctx) (u : UserTypeProjection),
        UserTypeProjection.internal t c u = .error .UnsupportedConstruct) ∧
    (∀ (t : Tables) (c : Ctx) (asm : String),
        MonoItem.internal t c (.GlobalAsm asm) = .error .UnsupportedConstruct) :=
  ⟨fun _ => rfl, fun _ => rfl, fun _ _ _ _ => rfl, fun _ _ _ _ => rfl,
    fun _ _ _ => rfl, fun _ _ _ => rfl, fun _ _ _ => rfl⟩

/-- C4: each scalar and enum leaf translator (integer, unsigned-integer and
float width classes, mutability, movability, safety, calling convention,
variance, closure kind) is a total function on its declared variant set and
maps stable tags to internal tags one-to-one. -/
theorem c4_scalar_tag_bijection :
    (∀ a b : IntTy, IntTy.internal a = IntTy.internal b → a = b) ∧
    (∀ a b : UintTy, UintTy.internal a = UintTy.internal b → a = b) ∧
    (∀ a b : FloatTy, FloatTy.internal a = FloatTy.internal b → a = b) ∧
    (∀ a b : Mutability, Mutability.internal a = Mutability.internal b → a = b) ∧
    (∀ a b : Movability, Movability.internal a = Movability.internal b → a = b) ∧
    (∀ a b : Safety, Safety.internal a = Safety.internal b → a = b) ∧
    (∀ a b : Abi, Abi.internal a = Abi.internal b → a = b) ∧
    (∀ a b : Variance, Variance.internal a = Variance.internal b → a = b) ∧
    (∀ a b : ClosureKind, ClosureKind.internal a = ClosureKind.internal b → a = b) := by
  refine ⟨?_, ?_, ?_, ?_, ?_, ?_, ?_, ?_, ?_⟩ <;> decide

/-- C4 witness: the injectivity clause applied at a concrete tag pair. -/
theorem c4_witness : Abi.RustCall = Abi.RustCall :=
  c4_scalar_tag_bijection.2.2.2.2.2.2.1 Abi.RustCall Abi.RustCall rfl

/-- C5: a translated place keeps the stable local index and its projection
sequence is the element-wise, order-preserving translation of the stable
one; numeric bounds (constant-index offset, min length, from-end, subslice
bounds, field index) pass through unchanged; and the concrete scenario of
local 0 with one field projection at index 2 over the registered two-field
tuple yields local 0, field index 2, typed as the tuple's second field. -/
theorem c5_place_structure :
    (∀ (t : Tables) (c : Ctx) (p : Place) (ip : Internal.Place),
        Place.internal t c p = .ok ip →
          ip.locl = p.locl ∧
          mapME (ProjectionElem.internal t c) p.projection = .ok ip.projection ∧
          ip.projection.length = p.projection.length ∧
          ∀ (i : Nat) (h1 : i < p.projection.length) (h2 : i < ip.projection.length),
            ProjectionElem.internal t c (p.projection.get ⟨i, h1⟩) =
              .ok (ip.projection.get ⟨i, h2⟩)) ∧
    (∀ (t : Tables) (c : Ctx) (offset min_length : Nat) (from_end : Bool),
        ProjectionElem.internal t c (.ConstantIndex offset min_length from_end) =
          .ok (.ConstantIndex offset min_length from_end)) ∧
    (∀ (t : Tables) (c : Ctx) (sfrom sto : Nat) (from_end : Bool),
        ProjectionElem.internal t c (.Subslice sfrom sto from_end) =
          .ok (.Subslice sfrom sto from_end)) ∧
    (∀ (t : Tables) (c : Ctx) (idx : Nat) (ty : Ty) (ity : Internal.TyKind),
        Ty.internal t c ty = .ok ity →
          ProjectionElem.internal t c (.Field idx ty) = .ok (.Field idx ity)) ∧
    TW.types 1 = some (.Tuple [.Uint .U8, .Int .I32]) ∧
    TW.types 2 = some (.Int .I32) ∧
    Place.internal TW CW P5 = .ok IP5 := by
  refine ⟨?_, ?_, ?_, ?_, rfl, rfl, rfl⟩
  · intro t c p ip h
    unfold Place.internal at h
    cases hm : mapME (ProjectionElem.internal t c) p.projection with
    | error e => rw [hm] at h; cases h
    | ok elems =>
      rw [hm] at h
      cases h
      exact ⟨rfl, rfl, mapME_length hm, fun i h1 h2 => mapME_get hm i h1 h2⟩
  · intro t c offset min_length from_end; rfl
  · intro t c sfrom sto from_end; rfl
  · intro t c idx ty ity h
    simp only [ProjectionElem.internal]
    rw [h]
    rfl

/-- C5 witness: the structural clause applied to the concrete scenario. -/
theorem c5_witness : Internal.Place.locl IP5 = Place.locl P5 :=
  (c5_place_structure.1 TW CW P5 IP5 rfl).1

/-- C6: translating the stable Abort terminator succeeds and yields the
internal unwind-terminate terminator carrying the default Abi termination
reason, as does the Terminate unwind action. -/
theorem c6_abort_unwind_terminate :
    (∀ (t : Tables) (c : Ctx),
        TerminatorKind.internal t c .Abort = .ok (.UnwindTerminate .Abi)) ∧
    UnwindAction.internal .Terminate = .Terminate .Abi :=
  ⟨fun _ _ => rfl, rfl⟩

/-- C7: translation is deterministic: under one fixed identity-table state
(the table is only read, never written, during translation) two runs of the
type translator or the body translator on the same stable value produce
equal results. -/
theorem c7_deterministic :
    (∀ (t1 t2 : Tables) (c : Ctx) (rt : RigidTy),
        t1 = t2 → RigidTy.internal t1 c rt = RigidTy.internal t2 c rt) ∧
    (∀ (t1 t2 : Tables) (c : Ctx) (b : Body),
        t1 = t2 → Body.internal t1 c b = Body.internal t2 c b) := by
  constructor
  · intro t1 t2 c rt h; rw [h]
  · intro t1 t2 c b h; rw [h]

/-- C7 witness: two runs on a concrete rigid type under the fixture table. -/
theorem c7_witness :
    RigidTy.internal TW CW (.Int .I32) = RigidTy.internal TW CW (.Int .I32) :=
  c7_deterministic.1 TW TW CW (.Int .I32) rfl

/-- C8: body assembly takes its basic blocks, local declarations and
argument count structurally from the stable input, and every internal
bookkeeping argument with no stable counterpart (source scopes, user-type
annotation table, var-debug-info, body span, coroutine info, taint) gets
the same empty or default placeholder on every call. -/
theorem c8_body_defaults :
    ∀ (t : Tables) (c : Ctx) (b : Body) (ib : Internal.Body),
      Body.internal t c b = .ok ib →
        ib.arg_count = b.arg_count ∧
        mapME (BasicBlock.internal t c) b.blocks = .ok ib.basic_blocks ∧
        mapME (LocalDecl.internal t c) b.locals = .ok ib.local_decls ∧
        ib.basic_blocks.length = b.blocks.length ∧
        ib.local_decls.length = b.locals.length ∧
        ib.source = 0 ∧
        ib.source_scopes = [] ∧
        ib.user_type_annotations = [] ∧
        ib.var_debug_info = [] ∧
        ib.span = .dummy ∧
        ib.coroutine = none ∧
        ib.tainted_by_errors = none := by
  intro t c b ib h
  unfold Body.internal at h
  cases hb : mapME (BasicBlock.internal t c) b.blocks with
  | error e => rw [hb] at h; cases h
  | ok bbs =>
    rw [hb] at h
    cases hl : mapME (LocalDecl.internal t c) b.locals with
    | error e => rw [hl] at h; cases h
    | ok lds =>
      rw [hl] at h
      cases h
      exact ⟨rfl, rfl, rfl, mapME_length hb, mapME_length hl, rfl, rfl, rfl, rfl,
        rfl, rfl, rfl⟩

/-- C8 witness: the assembly clauses applied to a concrete one-block body. -/
theorem c8_witness :
    Internal.Body.arg_count IB8 = Body.arg_count B8 ∧
    Internal.Body.user_type_annotations IB8 = [] := by
  have h := c8_body_defaults TW CW B8 IB8 rfl
  exact ⟨h.1, h.2.2.2.2.2.2.2.1⟩

/-- C9: for typed constants, MIR-level constants and allocation ids,
translation equals an identity-table lookup on the stable handle followed
by one context lift of the registered value, with no structural
reconstruction. -/
theorem c9_const_lookup_then_lift :
    (∀ (t : Tables) (c : Ctx) (tc : TyConst),
        TyConst.internal t c tc = tyConstLookupThenLift t c tc) ∧
    (∀ (t : Tables) (c : Ctx) (a : AllocId),
        AllocId.internal t c a = allocIdLookupThenLift t c a) ∧
    (∀ (t : Tables) (c : Ctx) (mc : MirConst),
        MirConst.internal t c mc = mirConstLookupThenLift t c mc) := by
  refine ⟨fun _ _ _ => rfl, fun _ _ _ => rfl, ?_⟩
  intro t c mc
  simp only [MirConst.internal, mirConstLookupThenLift]
  cases t.mir_consts mc.id with
  | none => rfl
  | some cst =>
    cases cst with
    | Ty ty ct =>
      simp only [hlookup, hlift, Ctx.liftConst, bind, Except.bind]
      cases c.liftTy ty <;> cases c.liftTyConst ct <;> rfl
    | Unevaluated u ty =>
      simp only [hlookup, hlift, Ctx.liftConst, bind, Except.bind]
      cases c.liftUneval u <;> cases c.liftTy ty <;> rfl
    | Val v ty =>
      simp only [hlookup, hlift, Ctx.liftConst, bind, Except.bind]
      cases c.liftConstVal v <;> cases c.liftTy ty <;> rfl

/-- C10: coroutine translation silently discards the movability component:
coroutine rigid types and coroutine aggregate kinds differing only in
movability translate to identical internal values, and on registered
inputs both movabilities succeed with the same movability-free result. -/
theorem c10_coroutine_movability_discarded :
    (∀ (t : Tables) (c : Ctx) (d : DefId) (args : GenericArgs) (m1 m2 : Movability),
        RigidTy.internal t c (.Coroutine d args m1) =
          RigidTy.internal t c (.Coroutine d args m2)) ∧
    (∀ (t : Tables) (c : Ctx) (d : DefId) (args : GenericArgs) (m1 m2 : Movability),
        AggregateKind.internal t c (.Coroutine d args m1) =
          AggregateKind.internal t c (.Coroutine d args m2)) ∧
    RigidTy.internal TW CW (.Coroutine 0 [] .Static) = .ok (.Coroutine 0 []) ∧
    RigidTy.internal TW CW (.Coroutine 0 [] .Movable) = .ok (.Coroutine 0 []) ∧
    AggregateKind.internal TW CW (.Coroutine 0 [] .Static) = .ok (.Coroutine 0 []) ∧
    AggregateKind.internal TW CW (.Coroutine 0 [] .Movable) = .ok (.Coroutine 0 []) :=
  ⟨fun _ _ _ _ _ _ => rfl, fun _ _ _ _ _ _ => rfl, rfl, rfl, rfl, rfl⟩
